import Mathlib

/-!
Verification of the certificate-lifecycle automation engine of
cisco-ssl-dashboard against its natural-language specification.

The development shallowly embeds the three core components:

* the ACME orchestrator (`src/backend/src/acme-client.ts`): account loading,
  certificate requests with DNS-01 challenge extraction, and the DNS record
  value helper;
* the remote shell automaton (`src/backend/src/ssh-client.ts`,
  `SSHClient.testConnection` / `executeCommand` / `executeCommandWithStream`):
  modelled as an explicit event-driven state machine whose step function
  mirrors the event handlers of the source, with JavaScript promise
  settlement modelled as first-write-wins on an `Option` result and
  `setTimeout`/`clearTimeout` modelled as active-flags on timer events;
* the certificate inspector (`getCertificateInfo`,
  `getCertificateInfoFromFile`, `getCertificateInfoWithFallback`): the
  network/file outcomes are abstracted as inputs, and the validity /
  expiry computation is embedded exactly (JavaScript `Math.floor` of a
  division by a positive constant is `Int.fdiv`).

Asynchronous scheduling is represented by explicit event traces; machine
arithmetic stays in `Nat`/`Int` (JavaScript numbers here are integral
millisecond counts and the timeouts used are multiples of 1000, so `Nat`
division models the interpolated `${ms / 1000}` rendering).
-/

/-! ## String helpers

JavaScript `String.prototype.includes` (substring containment), embedded
over the character list of a `String` so that concrete runs reduce in the
kernel. -/

/-- `chStarts n h` is true iff the char list `n` is an initial segment of `h`. -/
def chStarts : List Char → List Char → Bool
  | [], _ => true
  | _ :: _, [] => false
  | a :: as, b :: bs => a == b && chStarts as bs

/-- `chHas n h` is true iff the char list `n` occurs contiguously in `h`. -/
def chHas (n : List Char) : List Char → Bool
  | [] => chStarts n []
  | b :: bs => chStarts n (b :: bs) || chHas n bs

/-- JavaScript `hay.includes(needle)`. -/
def strHas (hay needle : String) : Bool :=
  chHas needle.data hay.data

/-- JavaScript `s.substring(0, n)`. -/
def strTake (s : String) (n : Nat) : String :=
  ⟨s.data.take n⟩

/-- Boolean error test on `Except` (a thrown JavaScript exception is an
`Except.error`). -/
def isErr {ε α : Type} : Except ε α → Bool
  | .error _ => true
  | .ok _ => false

/-! ## ACME orchestrator (`src/backend/src/acme-client.ts`) -/

/-- The alphabet of base64url (RFC 4648 §5), used to state what an encoded
SHA-256 digest may look like. -/
def base64urlChars : List Char :=
  "ABCDEFGHIJKLMNOPQRSTUVWXYZabcdefghijklmnopqrstuvwxyz0123456789-_".data

/-- Every character of `s` lies in the base64url alphabet. -/
def isBase64url (s : String) : Bool :=
  s.data.all (fun c => base64urlChars.contains c)

/-- Length in characters of the unpadded base64url encoding of `nBytes`
bytes; `base64urlEncodedLength 32 = 43`, the length of an encoded SHA-256
digest. -/
def base64urlEncodedLength (nBytes : Nat) : Nat :=
  (8 * nBytes + 5) / 6

/-- `ACMEClient.getDNSRecordValue` (acme-client.ts:316-322).  The source
returns its argument unchanged: the acme-client library already hands the
caller the base64url-encoded SHA-256 digest as the key-authorization value
for dns-01, so the function performs no further processing. -/
def getDNSRecordValue (keyAuthorization : String) : String :=
  keyAuthorization

/-- The `ACMEAccount` record of acme-client.ts. -/
structure ACMEAccount where
  accountKey : String
  accountUrl : String
  email : String
  directory : String
deriving DecidableEq, Repr

/-- Outcome of `accountManager.loadAccount(connectionId, domain, provider)`
together with everything that can happen inside the `try` block of
`ACMEClient.loadAccount` (acme-client.ts:104-132): the persistence
collaborator found nothing, found a record, or the load/reconstruction
threw. -/
inductive LoadOutcome where
  | notFound
  | found (accountData : ACMEAccount)
  | failure (msg : String)
deriving DecidableEq, Repr

/-- `ACMEClient.loadAccount` (acme-client.ts:104-132).  `null` when nothing
is stored, the reconstructed account when found — and, because the `catch`
block logs and `return null`, also `null` when the load itself fails. -/
def loadAccount (stored : LoadOutcome) : Option ACMEAccount :=
  match stored with
  | .notFound => none
  | .found accountData => some accountData
  | .failure _ => none

/-- An ACME challenge object as used by `requestCertificate` (only the
fields the engine reads). -/
structure AcmeChallenge where
  type : String
  url : String
  token : String
deriving DecidableEq, Repr

/-- An ACME authorization: its identifier value and its challenge list. -/
structure AcmeAuthorization where
  identifierValue : String
  challenges : List AcmeChallenge
deriving DecidableEq, Repr

/-- An opaque ACME order handle (the engine only reads `order.url`). -/
structure AcmeOrder where
  url : String
deriving DecidableEq, Repr

/-- The `CertificateOrder` record of acme-client.ts. -/
structure CertificateOrder where
  order : AcmeOrder
  csr : String
  domains : List String
  challenges : List AcmeChallenge
deriving DecidableEq, Repr

/-- The per-authorization lookup of `requestCertificate`
(acme-client.ts:180-182): `authorization.challenges.find(c => c.type === 'dns-01')`. -/
def findDns01 (a : AcmeAuthorization) : Option AcmeChallenge :=
  a.challenges.find? (fun c => c.type == "dns-01")

/-- The challenge-collection loop of `requestCertificate`
(acme-client.ts:176-190): one dns-01 challenge pushed per authorization,
and a thrown error as soon as any authorization lacks one (so no partial
challenge list can escape). -/
def extractChallenges : List AcmeAuthorization → Except String (List AcmeChallenge)
  | [] => .ok []
  | a :: rest =>
    match findDns01 a with
    | some c =>
      match extractChallenges rest with
      | .ok cs => .ok (c :: cs)
      | .error e => .error e
    | none => .error ("No DNS-01 challenge found for " ++ a.identifierValue)

/-- `ACMEClient.requestCertificate` (acme-client.ts:134-203).
`clientReady` models `this.client` being non-null (an account was loaded or
created); `orderResult` and `authResult` are the outcomes of the raced
`createOrder` and `getAuthorizations` round-trips (either a value or the
thrown/timeout error). -/
def requestCertificate (clientReady : Bool) (csr : String) (domains : List String)
    (orderResult : Except String AcmeOrder)
    (authResult : Except String (List AcmeAuthorization)) :
    Except String CertificateOrder :=
  if !clientReady then
    .error "ACME client not initialized. Please load or create an account first."
  else if domains.isEmpty then
    .error "No domains provided for certificate request"
  else
    match orderResult with
    | .error e => .error e
    | .ok order =>
      match authResult with
      | .error e => .error e
      | .ok auths =>
        match extractChallenges auths with
        | .error e => .error e
        | .ok challenges => .ok { order := order, csr := csr, domains := domains, challenges := challenges }

/-! ## Remote shell automaton (`src/backend/src/ssh-client.ts`)

The three static operations `SSHClient.testConnection` (lines 136-292),
`SSHClient.executeCommand` (lines 299-460) and
`SSHClient.executeCommandWithStream` (lines 467-641) share one shape: a
promise resolved by competing event handlers over a `resolved` flag.  We
embed them as one state machine parameterized by the operation kind; each
constructor of `Ev` is one of the source's callbacks, and the step function
transcribes that callback's body.  JavaScript promise settlement is
first-write-wins on `result`; `clearTimeout` turns off the corresponding
active-flag so a cleared timer event is a no-op. -/

/-- Which of the three static operations is running. -/
inductive OpKind where
  | test
  | cmd
  | cmdStream
deriving DecidableEq, Repr

/-- A settled promise value: the union of `SSHTestResult`,
`SSHCommandResult` and `SSHStreamCommandResult` (all fields optional but
`success`). -/
structure SSHResult where
  success : Bool
  message : Option String := none
  output : Option String := none
  error : Option String := none
deriving DecidableEq, Repr

/-- The observable state of one invocation: the `resolved` flag, the
accumulated output buffer, the promise settlement (`result`), how many
times `conn.end()` ran, whether each timer is still pending, and whether
the command was written / the shell opened. -/
structure MachineState where
  resolved : Bool
  buffer : String
  result : Option SSHResult
  endCount : Nat
  overallActive : Bool
  secondaryActive : Bool
  commandSent : Bool
  shellOpen : Bool
deriving DecidableEq, Repr

/-- The events that can fire during one invocation, one per source
callback: `connReady`/`shellOk`/`shellErr` for connection and shell setup,
`grace` for the 5-second prompt timer, `data`/`stderrData`/`streamClose`
for the shell stream, `overallTimeout`/`secondaryTimeout` for the two
deadline timers, `connError`/`connClose` for the transport, and
`connectThrow` for a synchronous `conn.connect` exception. -/
inductive Ev where
  | connReady
  | shellOk
  | shellErr (msg : String)
  | grace
  | data (chunk : String)
  | stderrData (chunk : String)
  | streamClose
  | overallTimeout
  | secondaryTimeout
  | connError (msg : String)
  | connClose
  | connectThrow (msg : String)
deriving DecidableEq, Repr

/-- The `cleanup` closure shared by all three operations: end the transport
once, guarded by the `resolved` flag. -/
def cleanup (s : MachineState) : MachineState :=
  if s.resolved then s
  else { s with resolved := true, endCount := s.endCount + 1 }

/-- The `resolveResult` closure: `cleanup()` then `resolve(result)`; the
promise keeps the first value it was resolved with. -/
def deliver (s : MachineState) (r : SSHResult) : MachineState :=
  if (cleanup s).result.isSome then cleanup s
  else { cleanup s with result := some r }

/-- The source's test for the special-cased completion patterns:
`command.includes('service restart') && command.includes('Cisco Tomcat')`. -/
def isTomcatRestart (cmd : String) : Bool :=
  strHas cmd "service restart" && strHas cmd "Cisco Tomcat"

/-- The completion decision taken by the `data` handler on one chunk, with
`buf` the buffer already extended by the chunk.  `testConnection` watches
for the prompt token anywhere in the buffer; the command operations
dispatch on the command text: Cisco Tomcat restarts look for
`[STARTED]`-plus-prompt-in-chunk or a failure marker in the buffer, all
other commands for prompt-in-chunk plus the echoed command text. -/
def dataDecision (k : OpKind) (cmd buf chunk : String) : Option SSHResult :=
  match k with
  | .test =>
    if strHas buf "admin:" then
      some { success := true, message := some "Successfully connected to Cisco VOS CLI" }
    else none
  | _ =>
    if isTomcatRestart cmd then
      if strHas buf "[STARTED]" && strHas chunk "admin:" then
        some { success := true, output := some buf }
      else if strHas buf "[FAILED]" || strHas buf "ERROR" then
        some { success := false, output := some buf, error := some "Service restart failed" }
      else none
    else
      if strHas chunk "admin:" && strHas buf cmd then
        some { success := true, output := some buf }
      else none

/-- The secondary-timer budget of the command operations:
`Math.max(commandTimeout - 10000, 30000)` (ssh-client.ts:401, 580). -/
def remainingTime (t : Nat) : Nat :=
  max (t - 10000) 30000

/-- Error text of the overall command timer. -/
def overallTimeoutError (t : Nat) : String :=
  "Command execution timeout after " ++ toString (t / 1000) ++ " seconds"

/-- Error text of the secondary (no-further-response) command timer. -/
def noResponseError (t : Nat) : String :=
  "Command execution timeout - no response from server after " ++ toString (remainingTime t / 1000) ++ " seconds"

/-- The result delivered when the secondary timer fires unresolved: the
shell timeout of `testConnection` (ssh-client.ts:222-246), which reports
the first 500 captured characters when any data arrived, or the
no-further-response timeout of the command operations (ssh-client.ts:
402-411, 581-590), which always carries the accumulated output. -/
def secondaryResult (k : OpKind) (t : Nat) (buf : String) : SSHResult :=
  match k with
  | .test =>
    if buf.length > 0 then
      { success := false
        error := some "Connected but did not receive expected VOS CLI prompt (admin:)"
        message := some (strTake buf 500) }
    else
      { success := false, error := some "Connected but received no data from server" }
  | _ => { success := false, error := some (noResponseError t), output := some buf }

/-- One event of one invocation.  Each branch transcribes the matching
handler of the source function selected by `k` (`cmd` is the command text,
`t` the `commandTimeout` parameter; both unused by `testConnection`). -/
def step (k : OpKind) (cmd : String) (t : Nat) (s : MachineState) : Ev → MachineState
  | .connReady => s
  | .shellOk =>
    if k = OpKind.test then { s with shellOpen := true, secondaryActive := true }
    else { s with shellOpen := true }
  | .shellErr m =>
    deliver { s with overallActive := false }
      (match k with
       | .cmdStream => { success := false, error := some ("Failed to start shell: " ++ m), output := some "" }
       | _ => { success := false, error := some ("Failed to start shell: " ++ m) })
  | .grace =>
    if s.resolved then s
    else if k = OpKind.test then s
    else { s with commandSent := true, secondaryActive := true }
  | .data chunk =>
    match dataDecision k cmd (s.buffer ++ chunk) chunk with
    | some r =>
      if k = OpKind.test then
        deliver { s with buffer := s.buffer ++ chunk, overallActive := false, secondaryActive := false } r
      else
        deliver { s with buffer := s.buffer ++ chunk, overallActive := false } r
    | none => { s with buffer := s.buffer ++ chunk }
  | .stderrData chunk =>
    if k = OpKind.test then s else { s with buffer := s.buffer ++ chunk }
  | .streamClose =>
    cleanup { s with overallActive := false }
  | .overallTimeout =>
    if s.overallActive then
      deliver { s with overallActive := false }
        (match k with
         | .test => { success := false, error := some "Connection timeout after 45 seconds" }
         | .cmd => { success := false, error := some (overallTimeoutError t) }
         | .cmdStream => { success := false, error := some (overallTimeoutError t), output := some s.buffer })
    else s
  | .secondaryTimeout =>
    if s.secondaryActive then
      if s.resolved then { s with secondaryActive := false }
      else
        deliver { s with secondaryActive := false, overallActive := false }
          (secondaryResult k t s.buffer)
    else s
  | .connError m =>
    deliver { s with overallActive := false }
      (match k with
       | .cmdStream => { success := false, error := some ("Connection error: " ++ m), output := some "" }
       | _ => { success := false, error := some ("Connection error: " ++ m) })
  | .connClose =>
    if s.resolved then { s with overallActive := false }
    else
      deliver { s with overallActive := false }
        (match k with
         | .test => { success := false, error := some "Connection closed unexpectedly" }
         | _ => { success := false, error := some "Connection closed unexpectedly", output := some s.buffer })
  | .connectThrow m =>
    deliver { s with overallActive := false }
      (match k with
       | .cmdStream => { success := false, error := some ("Failed to initiate connection: " ++ m), output := some "" }
       | _ => { success := false, error := some ("Failed to initiate connection: " ++ m) })

/-- The state at promise construction: nothing resolved, empty buffer, the
overall timer armed. -/
def initState : MachineState :=
  { resolved := false, buffer := "", result := none, endCount := 0,
    overallActive := true, secondaryActive := false, commandSent := false, shellOpen := false }

/-- Fold a list of events through the machine from a given state. -/
def steps (k : OpKind) (cmd : String) (t : Nat) (s : MachineState) (evs : List Ev) : MachineState :=
  evs.foldl (step k cmd t) s

/-- One whole invocation observed as an event trace. -/
def run (k : OpKind) (cmd : String) (t : Nat) (evs : List Ev) : MachineState :=
  steps k cmd t initState evs

/-- The contribution of one event to the accumulated output buffer
(`testConnection` does not fold stderr into `dataReceived`; the command
operations append both streams). -/
def evChunk (k : OpKind) : Ev → String
  | .data c => c
  | .stderrData c => if k = OpKind.test then "" else c
  | _ => ""

/-- The buffer an event trace should have produced: the concatenation of
its chunks in arrival order. -/
def chunksJoined (k : OpKind) : List Ev → String
  | [] => ""
  | e :: evs => evChunk k e ++ chunksJoined k evs

/-! ## Certificate inspector (`src/backend/src/ssh-client.ts`, inspector part)

`getCertificateInfo` (lines 671-760) and `getCertificateInfoFromFile`
(lines 767-847) both resolve with `null` on every failure (connection
error, timeout, empty peer certificate, missing file, parse throw) and
otherwise build the same `CertificateInfo` snapshot; the network/file
outcome is abstracted as an input and the snapshot computation is embedded
exactly.  Dates are millisecond timestamps (`Date.getTime()`); the
locale-formatted `validFrom`/`validTo` strings are presentation of those
timestamps and are modelled by the timestamps themselves. -/

/-- Optional CN/O/OU components of a parsed subject or issuer. -/
structure DistinguishedName where
  CN : Option String
  O : Option String
  OU : Option String
deriving DecidableEq, Repr

/-- The CN/O/OU triple after the source's
`x || '<Not Part Of Certificate>'` defaulting. -/
structure NameInfo where
  CN : String
  O : String
  OU : String
deriving DecidableEq, Repr

/-- The fields read off a peer certificate or parsed PEM before the
snapshot is built. -/
structure RawCert where
  subject : DistinguishedName
  issuer : DistinguishedName
  validFromMs : Int
  validToMs : Int
  fingerprint : String
  fingerprint256 : String
  serialNumber : String
  subjectAltNames : List String
deriving DecidableEq, Repr

/-- The `CertificateInfo` snapshot of ssh-client.ts. -/
structure CertInfoM where
  subject : NameInfo
  issuer : NameInfo
  validFromMs : Int
  validToMs : Int
  fingerprint : String
  fingerprint256 : String
  serialNumber : String
  subjectAltNames : List String
  isValid : Bool
  daysUntilExpiry : Int
deriving DecidableEq, Repr

/-- Defaulting of missing name parts (`cert.subject?.CN || '<Not Part Of Certificate>'`). -/
def fillDN (d : DistinguishedName) : NameInfo :=
  { CN := d.CN.getD "<Not Part Of Certificate>"
    O := d.O.getD "<Not Part Of Certificate>"
    OU := d.OU.getD "<Not Part Of Certificate>" }

/-- The snapshot computation shared by `getCertificateInfo`
(lines 693-735) and `getCertificateInfoFromFile` (lines 780-839):
`isValid := now >= validFrom && now <= validTo` and
`daysUntilExpiry := Math.floor((validTo - now) / 86400000)`, which on
integral millisecond timestamps is floor division (`Int.fdiv`) by the
positive constant `1000 * 60 * 60 * 24`. -/
def mkCertInfo (now : Int) (c : RawCert) : CertInfoM :=
  { subject := fillDN c.subject
    issuer := fillDN c.issuer
    validFromMs := c.validFromMs
    validToMs := c.validToMs
    fingerprint := c.fingerprint
    fingerprint256 := c.fingerprint256
    serialNumber := c.serialNumber
    subjectAltNames := c.subjectAltNames
    isValid := decide (c.validFromMs ≤ now) && decide (now ≤ c.validToMs)
    daysUntilExpiry := (c.validToMs - now).fdiv 86400000 }

/-- Outcome of one live TLS probe (`tls.connect`): transport error, socket
timeout, an empty peer-certificate object, or a certificate. -/
inductive ProbeOutcome where
  | connFailed
  | timedOut
  | emptyCert
  | cert (raw : RawCert)
deriving DecidableEq, Repr

/-- `getCertificateInfo(hostname, port)` (ssh-client.ts:671-760): every
failure resolves `null`, a presented certificate resolves the snapshot. -/
def getCertificateInfo (now : Int) (o : ProbeOutcome) : Option CertInfoM :=
  match o with
  | .connFailed => none
  | .timedOut => none
  | .emptyCert => none
  | .cert raw => some (mkCertInfo now raw)

/-- Outcome of looking at one `certificate.pem` path: file absent, parse
threw, or a parsed certificate. -/
inductive FileOutcome where
  | missing
  | parseFailure
  | pem (raw : RawCert)
deriving DecidableEq, Repr

/-- `getCertificateInfoFromFile(certPath)` (ssh-client.ts:767-847):
missing file and any parse throw return `null`; otherwise the snapshot. -/
def getCertificateInfoFromFile (now : Int) (f : FileOutcome) : Option CertInfoM :=
  match f with
  | .missing => none
  | .parseFailure => none
  | .pem raw => some (mkCertInfo now raw)

/-- The world one `getCertificateInfoWithFallback(hostname)` call observes:
the probe outcome per port, what the two environment subdirectories of
`<accountsRoot>/<hostname>/` hold, and the deployment-wide staging
switch. -/
structure InspectorWorld where
  now : Int
  live : Nat → ProbeOutcome
  stagingFile : FileOutcome
  prodFile : FileOutcome
  isStaging : Bool

/-- The configured environment subdirectory
(`certSubDir = isStaging ? 'staging' : 'prod'`, ssh-client.ts:863). -/
def primaryFile (w : InspectorWorld) : FileOutcome :=
  if w.isStaging then w.stagingFile else w.prodFile

/-- The alternate environment subdirectory
(`alternateCertSubDir = isStaging ? 'prod' : 'staging'`, ssh-client.ts:894). -/
def alternateFile (w : InspectorWorld) : FileOutcome :=
  if w.isStaging then w.prodFile else w.stagingFile

/-- The port loop of `getCertificateInfoWithFallback`
(ssh-client.ts:868-881): return the first port whose probe yields a
certificate.  The `try`/`catch` around the probe is vacuous because
`getCertificateInfo` resolves `null` rather than throwing. -/
def tryPorts (w : InspectorWorld) : List Nat → Option CertInfoM
  | [] => none
  | p :: ps =>
    match getCertificateInfo w.now (w.live p) with
    | some c => some c
    | none => tryPorts w ps

/-- The fixed probing order `const ports = [443, 8443, 9443]`. -/
def inspectorPorts : List Nat := [443, 8443, 9443]

/-- `getCertificateInfoWithFallback(hostname)` (ssh-client.ts:854-907):
live probe over the fixed port list, then the configured environment
subdirectory, then the alternate one, then `null`. -/
def getCertificateInfoWithFallback (w : InspectorWorld) : Option CertInfoM :=
  match tryPorts w inspectorPorts with
  | some c => some c
  | none =>
    match getCertificateInfoFromFile w.now (primaryFile w) with
    | some c => some c
    | none => getCertificateInfoFromFile w.now (alternateFile w)

/-- Replace what the alternate environment subdirectory holds, leaving the
probes and the configured subdirectory untouched (used to state that the
fallback never consults the alternate subdirectory when the configured one
parses). -/
def setAlternate (w : InspectorWorld) (f : FileOutcome) : InspectorWorld :=
  if w.isStaging then { w with prodFile := f } else { w with stagingFile := f }

/-! ## Supporting lemmas for the ACME orchestrator -/

theorem findDns01_mem_type {a : AcmeAuthorization} {c : AcmeChallenge}
    (h : findDns01 a = some c) : c ∈ a.challenges ∧ c.type = "dns-01" := by
  unfold findDns01 at h
  refine ⟨List.mem_of_find?_eq_some h, ?_⟩
  have := List.find?_some h
  simpa using this

theorem extractChallenges_forall2 :
    ∀ {auths : List AcmeAuthorization} {cs : List AcmeChallenge},
      extractChallenges auths = .ok cs →
      List.Forall₂ (fun c a => findDns01 a = some c) cs auths := by
  intro auths
  induction auths with
  | nil =>
    intro cs h
    unfold extractChallenges at h
    cases h
    exact List.Forall₂.nil
  | cons a rest ih =>
    intro cs h
    unfold extractChallenges at h
    cases h1 : findDns01 a with
    | none => rw [h1] at h; cases h
    | some c =>
      rw [h1] at h
      cases h2 : extractChallenges rest with
      | error e => rw [h2] at h; cases h
      | ok cs' =>
        rw [h2] at h
        cases h
        exact List.Forall₂.cons h1 (ih h2)

theorem extractChallenges_err_of_missing :
    ∀ {auths : List AcmeAuthorization} {a : AcmeAuthorization},
      a ∈ auths → findDns01 a = none → isErr (extractChallenges auths) = true := by
  intro auths
  induction auths with
  | nil => intro a h; cases h
  | cons b rest ih =>
    intro a hmem hnone
    unfold extractChallenges
    rcases List.mem_cons.mp hmem with heq | hrest
    · subst heq
      rw [hnone]
      rfl
    · cases h1 : findDns01 b with
      | none => rfl
      | some c =>
        have herr := ih hrest hnone
        cases h2 : extractChallenges rest with
        | error e => rfl
        | ok cs => rw [h2] at herr; cases herr

/-! ## Claim theorems: ACME orchestrator -/

/-- C1 (counterexample): the spec claims `getDNSRecordValue(k)` is the
base64url-encoded SHA-256 digest of `k` — in particular that its output
uses only the base64url alphabet and has the fixed length of an encoded
32-byte digest (43 characters) regardless of `k`.  On the concrete input
`"!"` the source returns `"!"` itself: length 1, not 43, and `!` is not a
base64url character, so the claim is false. -/
theorem getDNSRecordValue_c1_counterexample :
    getDNSRecordValue "!" = "!"
    ∧ (getDNSRecordValue "!").length ≠ base64urlEncodedLength 32
    ∧ isBase64url (getDNSRecordValue "!") = false := by
  refine ⟨rfl, by decide, by decide⟩

/-- C1 (amended): `getDNSRecordValue` returns the key authorization
unchanged — it is the identity, hence pure, and its output has exactly the
length (and content, so alphabet) of its input; the base64url SHA-256
digesting happens upstream in the acme-client library. -/
theorem getDNSRecordValue_c1_amended (keyAuthorization : String) :
    getDNSRecordValue keyAuthorization = keyAuthorization
    ∧ (getDNSRecordValue keyAuthorization).length = keyAuthorization.length := by
  exact ⟨rfl, rfl⟩

/-- C2: `requestCertificate` throws when the client is uninitialized or the
domain list is empty; when it returns an order, the client was initialized,
the domains were non-empty, and the challenge list pairs up 1:1 and in
order with the returned authorizations, each entry being a dns-01 challenge
of its authorization (so, with one authorization per requested domain,
exactly one dns-01 challenge per domain); and if any authorization lacks a
dns-01 challenge the whole call throws — being an `Except`, no partially
populated challenge list can be returned. -/
theorem requestCertificate_c2 (csr : String) (domains : List String)
    (orderResult : Except String AcmeOrder)
    (authResult : Except String (List AcmeAuthorization)) :
    isErr (requestCertificate false csr domains orderResult authResult) = true
    ∧ (∀ clientReady, domains = [] →
        isErr (requestCertificate clientReady csr domains orderResult authResult) = true)
    ∧ (∀ clientReady co,
        requestCertificate clientReady csr domains orderResult authResult = .ok co →
        clientReady = true ∧ domains ≠ [] ∧ co.csr = csr ∧ co.domains = domains
        ∧ orderResult = .ok co.order
        ∧ ∃ auths, authResult = .ok auths
            ∧ List.Forall₂ (fun c a => c ∈ a.challenges ∧ c.type = "dns-01") co.challenges auths
            ∧ co.challenges.length = auths.length
            ∧ (auths.length = domains.length → co.challenges.length = domains.length))
    ∧ (∀ auths a, authResult = .ok auths → a ∈ auths → findDns01 a = none →
        isErr (requestCertificate true csr domains orderResult authResult) = true) := by
  refine ⟨rfl, ?_, ?_, ?_⟩
  · intro clientReady h
    subst h
    cases clientReady <;> rfl
  · intro clientReady co h
    cases clientReady with
    | false => cases h
    | true =>
      unfold requestCertificate at h
      split at h
      · cases h
      · split at h
        · cases h
        · rename_i hcr hde
          split at h
          · cases h
          · rename_i o ho
            split at h
            · cases h
            · rename_i auths ha
              split at h
              · cases h
              · rename_i cs hec
                cases h
                have hne : domains ≠ [] := by
                  intro hnil
                  subst hnil
                  exact hde rfl
                have hf2 := extractChallenges_forall2 hec
                refine ⟨rfl, hne, rfl, rfl, rfl, ha, rfl, ?_, ?_, ?_⟩
                · exact hf2.imp (fun _ _ hx => findDns01_mem_type hx)
                · exact hf2.length_eq
                · intro hlen
                  rw [hf2.length_eq, hlen]
  · intro auths a hA hmem hnone
    unfold requestCertificate
    split
    · rfl
    · split
      · rfl
      · split
        · rfl
        · split
          · rfl
          · rename_i o ho auths2 ha2
            injection hA with hA'
            subst hA'
            have herr := extractChallenges_err_of_missing hmem hnone
            split
            · rfl
            · rename_i cs hec
              rw [hec] at herr
              cases herr

/-- C2 (witness): a concrete two-domain request against authorizations that
both carry a dns-01 challenge succeeds with one in-order challenge per
domain, and the same request with an empty domain list throws. -/
theorem requestCertificate_c2_witness :
    (isErr (requestCertificate true "csrpem" ([] : List String)
        (.ok ⟨"https://o"⟩) (.ok [])) = true)
    ∧ ([⟨"dns-01", "u1", "t1"⟩, ⟨"dns-01", "u2", "t2"⟩] : List AcmeChallenge).length
        = (["a.example.com", "b.example.com"] : List String).length := by
  obtain ⟨-, h2, h3, -⟩ := requestCertificate_c2 "csrpem" ([] : List String)
    (.ok ⟨"https://o"⟩) (.ok [])
  refine ⟨h2 true rfl, ?_⟩
  obtain ⟨-, -, -, -, -, auths, hA, -, -, hlen⟩ :=
    (requestCertificate_c2 "csrpem" ["a.example.com", "b.example.com"]
      (.ok ⟨"https://o"⟩)
      (.ok [⟨"a.example.com", [⟨"http-01", "h1", "s1"⟩, ⟨"dns-01", "u1", "t1"⟩]⟩,
            ⟨"b.example.com", [⟨"dns-01", "u2", "t2"⟩]⟩])).2.2.1 true
      ⟨⟨"https://o"⟩, "csrpem", ["a.example.com", "b.example.com"],
        [⟨"dns-01", "u1", "t1"⟩, ⟨"dns-01", "u2", "t2"⟩]⟩ rfl
  cases hA
  exact hlen rfl

/-- C8 (counterexample): the spec claims `loadAccount` returns null only
when nothing is stored and that a failing load propagates to the caller; in
the source the `catch` block logs and returns null, so a failed load (here
a concrete persistence failure) yields the same null as not-found instead
of an error. -/
theorem loadAccount_c8_counterexample :
    loadAccount (LoadOutcome.failure "database unreachable") = none
    ∧ LoadOutcome.failure "database unreachable" ≠ LoadOutcome.notFound := by
  refine ⟨rfl, by decide⟩

/-- C8 (amended): `loadAccount` is total (it never throws) and returns null
exactly when the persistence collaborator has nothing stored or the load
itself failed — failures are caught, logged and mapped to the null
not-found outcome; a successfully loaded record is reconstructed and
returned. -/
theorem loadAccount_c8_amended (stored : LoadOutcome) :
    (loadAccount stored = none ↔ stored = .notFound ∨ ∃ m, stored = .failure m)
    ∧ (∀ a, stored = .found a → loadAccount stored = some a) := by
  cases stored <;> simp [loadAccount]

/-- C8 (amended, witness): instantiating the amended theorem at a stored
account shows the reconstruction path. -/
theorem loadAccount_c8_witness :
    loadAccount (LoadOutcome.found ⟨"key", "https://acct", "a@b.c", "https://dir"⟩)
      = some ⟨"key", "https://acct", "a@b.c", "https://dir"⟩ := by
  exact (loadAccount_c8_amended (LoadOutcome.found ⟨"key", "https://acct", "a@b.c", "https://dir"⟩)).2
    ⟨"key", "https://acct", "a@b.c", "https://dir"⟩ rfl

/-- A concrete parsed certificate used to instantiate the inspector
theorems. -/
def witnessRaw : RawCert :=
  ⟨⟨some "host", none, none⟩, ⟨some "CA", none, none⟩, 0, 86400000, "f1", "f256", "01", []⟩

/-- A concrete inspector world: every probe refused, a parseable PEM in the
configured (staging) subdirectory, nothing in the alternate one. -/
def witnessWorld : InspectorWorld :=
  { now := 0
    live := fun _ => ProbeOutcome.connFailed
    stagingFile := FileOutcome.pem witnessRaw
    prodFile := FileOutcome.missing
    isStaging := true }

/-! ## Supporting lemmas for the certificate inspector -/

theorem tryPorts_eq_none_iff (w : InspectorWorld) (ps : List Nat) :
    tryPorts w ps = none ↔ ∀ p ∈ ps, getCertificateInfo w.now (w.live p) = none := by
  induction ps with
  | nil => simp [tryPorts]
  | cons p ps ih =>
    unfold tryPorts
    cases h : getCertificateInfo w.now (w.live p) with
    | some c => simp [h]
    | none => simp [h, ih]

/-! ## Claim theorems: certificate inspector -/

/-- C6: the fallback probes ports in the fixed order 443, 8443, 9443 and
returns the first probed certificate; when no port yields one but the
configured environment subdirectory holds a parseable PEM, it returns that
parse, and the result does not depend on what the alternate environment
subdirectory holds (it is never consulted). -/
theorem inspector_c6 (w : InspectorWorld) :
    (∀ c, getCertificateInfo w.now (w.live 443) = some c →
        getCertificateInfoWithFallback w = some c)
    ∧ (∀ c, getCertificateInfo w.now (w.live 443) = none →
        getCertificateInfo w.now (w.live 8443) = some c →
        getCertificateInfoWithFallback w = some c)
    ∧ (∀ c, getCertificateInfo w.now (w.live 443) = none →
        getCertificateInfo w.now (w.live 8443) = none →
        getCertificateInfo w.now (w.live 9443) = some c →
        getCertificateInfoWithFallback w = some c)
    ∧ (∀ c, (∀ p ∈ inspectorPorts, getCertificateInfo w.now (w.live p) = none) →
        getCertificateInfoFromFile w.now (primaryFile w) = some c →
        ∀ f, getCertificateInfoWithFallback (setAlternate w f) = some c) := by
  refine ⟨?_, ?_, ?_, ?_⟩
  · intro c h1
    simp [getCertificateInfoWithFallback, inspectorPorts, tryPorts, h1]
  · intro c h1 h2
    simp [getCertificateInfoWithFallback, inspectorPorts, tryPorts, h1, h2]
  · intro c h1 h2 h3
    simp [getCertificateInfoWithFallback, inspectorPorts, tryPorts, h1, h2, h3]
  · intro c hports hfile f
    have h1 := hports 443 (by simp [inspectorPorts])
    have h2 := hports 8443 (by simp [inspectorPorts])
    have h3 := hports 9443 (by simp [inspectorPorts])
    cases hs : w.isStaging with
    | true =>
      have hw : setAlternate w f = { w with prodFile := f } := by
        simp [setAlternate, hs]
      rw [hw]
      rw [primaryFile, hs, if_pos rfl] at hfile
      simp [getCertificateInfoWithFallback, inspectorPorts, tryPorts, primaryFile,
        h1, h2, h3, hs, hfile]
    | false =>
      have hw : setAlternate w f = { w with stagingFile := f } := by
        simp [setAlternate, hs]
      rw [hw]
      rw [primaryFile, hs, if_neg (by simp)] at hfile
      simp [getCertificateInfoWithFallback, inspectorPorts, tryPorts, primaryFile,
        h1, h2, h3, hs, hfile]

/-- C6 (witness): a world where every probe fails at the transport layer
but the configured (staging) subdirectory parses returns that parse, with
the alternate subdirectory set to anything at all. -/
theorem inspector_c6_witness :
    getCertificateInfoWithFallback (setAlternate witnessWorld FileOutcome.parseFailure)
      = some (mkCertInfo 0 witnessRaw) := by
  exact (inspector_c6 witnessWorld).2.2.2 (mkCertInfo 0 witnessRaw)
    (fun p _ => rfl) rfl FileOutcome.parseFailure

/-- C7: the fallback chain is total — every probe failure, missing file or
parse failure is `none` and degrades to the next source — and the whole
resolution returns `none` exactly when no probed port presents a
certificate and neither environment subdirectory parses; that `none` is an
ordinary value, not a thrown error. -/
theorem inspector_c7 (w : InspectorWorld) :
    (getCertificateInfoWithFallback w = none ↔
      (getCertificateInfo w.now (w.live 443) = none
        ∧ getCertificateInfo w.now (w.live 8443) = none
        ∧ getCertificateInfo w.now (w.live 9443) = none
        ∧ getCertificateInfoFromFile w.now w.stagingFile = none
        ∧ getCertificateInfoFromFile w.now w.prodFile = none))
    ∧ getCertificateInfo w.now ProbeOutcome.connFailed = none
    ∧ getCertificateInfo w.now ProbeOutcome.timedOut = none
    ∧ getCertificateInfo w.now ProbeOutcome.emptyCert = none
    ∧ getCertificateInfoFromFile w.now FileOutcome.missing = none
    ∧ getCertificateInfoFromFile w.now FileOutcome.parseFailure = none := by
  refine ⟨?_, rfl, rfl, rfl, rfl, rfl⟩
  unfold getCertificateInfoWithFallback
  cases ht : tryPorts w inspectorPorts with
  | some c =>
    simp only [ht]
    constructor
    · intro h
      cases h
    · rintro ⟨h1, h2, h3, -, -⟩
      have hnone : tryPorts w inspectorPorts = none := by
        rw [tryPorts_eq_none_iff]
        intro p hp
        simp only [inspectorPorts, List.mem_cons, List.not_mem_nil, or_false] at hp
        rcases hp with rfl | rfl | rfl <;> assumption
      rw [hnone] at ht
      cases ht
  | none =>
    have hall := (tryPorts_eq_none_iff w inspectorPorts).mp ht
    have h1 := hall 443 (by simp [inspectorPorts])
    have h2 := hall 8443 (by simp [inspectorPorts])
    have h3 := hall 9443 (by simp [inspectorPorts])
    simp only [ht]
    unfold primaryFile alternateFile
    cases hs : w.isStaging with
    | true =>
      cases hp : getCertificateInfoFromFile w.now w.stagingFile with
      | some c => simp [hp, h1, h2, h3]
      | none => cases ha : getCertificateInfoFromFile w.now w.prodFile <;> simp [hp, ha, h1, h2, h3]
    | false =>
      cases hp : getCertificateInfoFromFile w.now w.prodFile with
      | some c => simp [hp, h1, h2, h3]
      | none => cases ha : getCertificateInfoFromFile w.now w.stagingFile <;> simp [hp, ha, h1, h2, h3]

/-- C9: in every snapshot the inspector builds, `isValid` holds exactly
when `validFrom ≤ now ≤ validTo` (both ends inclusive), `daysUntilExpiry`
is the floor of `(validTo - now)` in whole days — characterized by the
floor inequalities — and it is negative whenever the certificate is already
expired. -/
theorem mkCertInfo_c9 (now : Int) (c : RawCert) :
    ((mkCertInfo now c).isValid = true ↔ (c.validFromMs ≤ now ∧ now ≤ c.validToMs))
    ∧ (mkCertInfo now c).daysUntilExpiry = (c.validToMs - now).fdiv 86400000
    ∧ (86400000 * (mkCertInfo now c).daysUntilExpiry ≤ c.validToMs - now
        ∧ c.validToMs - now < 86400000 * ((mkCertInfo now c).daysUntilExpiry + 1))
    ∧ (c.validToMs < now → (mkCertInfo now c).daysUntilExpiry < 0) := by
  have hdef : (mkCertInfo now c).daysUntilExpiry = (c.validToMs - now).fdiv 86400000 := rfl
  have hediv : (c.validToMs - now).fdiv 86400000 = (c.validToMs - now) / 86400000 :=
    Int.fdiv_eq_ediv _ (by norm_num)
  refine ⟨?_, hdef, ?_, ?_⟩
  · simp [mkCertInfo]
  · rw [hdef, hediv]
    omega
  · intro hlt
    rw [hdef, hediv]
    omega

/-- C9 (witness): a snapshot taken one day past expiry is invalid with a
negative `daysUntilExpiry`, and one taken inside the validity window is
valid. -/
theorem mkCertInfo_c9_witness :
    (mkCertInfo 172800000 ⟨⟨none, none, none⟩, ⟨none, none, none⟩, 0, 86400000, "", "", "", []⟩).daysUntilExpiry < 0
    ∧ (mkCertInfo 1000 ⟨⟨none, none, none⟩, ⟨none, none, none⟩, 0, 86400000, "", "", "", []⟩).isValid = true := by
  constructor
  · exact (mkCertInfo_c9 172800000
      ⟨⟨none, none, none⟩, ⟨none, none, none⟩, 0, 86400000, "", "", "", []⟩).2.2.2 (by norm_num)
  · exact (mkCertInfo_c9 1000
      ⟨⟨none, none, none⟩, ⟨none, none, none⟩, 0, 86400000, "", "", "", []⟩).1.mpr (by norm_num)

/-! ## Supporting lemmas for the shell automaton -/

theorem cleanup_result (s : MachineState) : (cleanup s).result = s.result := by
  unfold cleanup
  split <;> rfl

theorem cleanup_buffer (s : MachineState) : (cleanup s).buffer = s.buffer := by
  unfold cleanup
  split <;> rfl

theorem deliver_result_some {s : MachineState} {r : SSHResult} (r' : SSHResult)
    (h : s.result = some r) : (deliver s r').result = some r := by
  unfold deliver
  rw [cleanup_result, h]
  simp [cleanup_result, h]

theorem deliver_isSome (s : MachineState) (r : SSHResult) :
    (deliver s r).result.isSome = true := by
  unfold deliver
  split
  · assumption
  · simp

theorem deliver_result_of_none {s : MachineState} (r : SSHResult)
    (h : s.result = none) : (deliver s r).result = some r := by
  unfold deliver
  rw [cleanup_result, h]
  simp

theorem deliver_buffer (s : MachineState) (r : SSHResult) :
    (deliver s r).buffer = s.buffer := by
  unfold deliver
  split
  · exact cleanup_buffer s
  · exact cleanup_buffer s

/-- Once the promise is settled, no later event changes its value. -/
theorem step_result_stable (k : OpKind) (c : String) (t : Nat) {s : MachineState}
    {r : SSHResult} (h : s.result = some r) :
    ∀ e, (step k c t s e).result = some r := by
  intro e
  cases e with
  | connReady => exact h
  | shellOk =>
    simp only [step]
    split <;> exact h
  | shellErr m => exact deliver_result_some _ h
  | grace =>
    simp only [step]
    split
    · exact h
    · split <;> exact h
  | data chunk =>
    simp only [step]
    split
    · split
      · exact deliver_result_some _ h
      · exact deliver_result_some _ h
    · exact h
  | stderrData chunk =>
    simp only [step]
    split <;> exact h
  | streamClose =>
    simp only [step]
    rw [cleanup_result]
    exact h
  | overallTimeout =>
    simp only [step]
    split
    · exact deliver_result_some _ h
    · exact h
  | secondaryTimeout =>
    simp only [step]
    split
    · split
      · exact h
      · exact deliver_result_some _ h
    · exact h
  | connError m => exact deliver_result_some _ h
  | connClose =>
    simp only [step]
    split
    · exact h
    · exact deliver_result_some _ h
  | connectThrow m => exact deliver_result_some _ h

theorem steps_result_stable (k : OpKind) (c : String) (t : Nat) :
    ∀ (evs : List Ev) {s : MachineState} {r : SSHResult}, s.result = some r →
      (steps k c t s evs).result = some r := by
  intro evs
  induction evs with
  | nil => intro s r h; exact h
  | cons e rest ih =>
    intro s r h
    exact ih (step_result_stable k c t h e)

theorem steps_isSome_stable (k : OpKind) (c : String) (t : Nat) (evs : List Ev)
    {s : MachineState} (h : s.result.isSome = true) :
    (steps k c t s evs).result.isSome = true := by
  cases hr : s.result with
  | none => rw [hr] at h; cases h
  | some r => rw [steps_result_stable k c t evs hr]; rfl

/-- The teardown count always equals the resolved flag: `conn.end()` runs
exactly when `resolved` flips, so at most once. -/
def countInv (s : MachineState) : Prop :=
  s.endCount = (if s.resolved = true then 1 else 0)

theorem cleanup_countInv {s : MachineState} (h : countInv s) : countInv (cleanup s) := by
  unfold countInv at h ⊢
  by_cases hr : s.resolved = true
  · rw [show cleanup s = s from by unfold cleanup; rw [if_pos hr]]
    exact h
  · rw [show cleanup s = { s with resolved := true, endCount := s.endCount + 1 } from by
      unfold cleanup; rw [if_neg hr]]
    have h0 : s.endCount = 0 := by rw [h, if_neg hr]
    show s.endCount + 1 = if true = true then 1 else 0
    simp [h0]

theorem deliver_countInv {s : MachineState} (r : SSHResult) (h : countInv s) :
    countInv (deliver s r) := by
  unfold deliver
  split
  · exact cleanup_countInv h
  · show (cleanup s).endCount = if (cleanup s).resolved = true then 1 else 0
    exact cleanup_countInv h

theorem step_countInv (k : OpKind) (c : String) (t : Nat) {s : MachineState}
    (h : countInv s) : ∀ e, countInv (step k c t s e) := by
  intro e
  cases e with
  | connReady => exact h
  | shellOk =>
    simp only [step]
    split <;> exact h
  | shellErr m => exact deliver_countInv _ h
  | grace =>
    simp only [step]
    split
    · exact h
    · split <;> exact h
  | data chunk =>
    simp only [step]
    split
    · split
      · exact deliver_countInv _ h
      · exact deliver_countInv _ h
    · exact h
  | stderrData chunk =>
    simp only [step]
    split <;> exact h
  | streamClose => exact cleanup_countInv h
  | overallTimeout =>
    simp only [step]
    split
    · exact deliver_countInv _ h
    · exact h
  | secondaryTimeout =>
    simp only [step]
    split
    · split
      · exact h
      · exact deliver_countInv _ h
    · exact h
  | connError m => exact deliver_countInv _ h
  | connClose =>
    simp only [step]
    split
    · exact h
    · exact deliver_countInv _ h
  | connectThrow m => exact deliver_countInv _ h

theorem steps_countInv (k : OpKind) (c : String) (t : Nat) :
    ∀ (evs : List Ev) {s : MachineState}, countInv s → countInv (steps k c t s evs) := by
  intro evs
  induction evs with
  | nil => intro s h; exact h
  | cons e rest ih =>
    intro s h
    exact ih (step_countInv k c t h e)

/-- Outside the shell-stream close handler, the `resolved` flag implies the
promise is settled (stream close is the one handler that sets `resolved`
without resolving). -/
def syncInv (s : MachineState) : Prop :=
  s.resolved = true → s.result.isSome = true

theorem deliver_syncInv (s : MachineState) (r : SSHResult) : syncInv (deliver s r) :=
  fun _ => deliver_isSome s r

theorem step_syncInv (k : OpKind) (c : String) (t : Nat) {s : MachineState}
    (h : syncInv s) : ∀ e, e ≠ Ev.streamClose → syncInv (step k c t s e) := by
  intro e hne
  cases e with
  | connReady => exact h
  | shellOk =>
    simp only [step]
    split <;> exact h
  | shellErr m => exact deliver_syncInv _ _
  | grace =>
    simp only [step]
    split
    · exact h
    · split <;> exact h
  | data chunk =>
    simp only [step]
    split
    · split
      · exact deliver_syncInv _ _
      · exact deliver_syncInv _ _
    · exact h
  | stderrData chunk =>
    simp only [step]
    split <;> exact h
  | streamClose => exact absurd rfl hne
  | overallTimeout =>
    simp only [step]
    split
    · exact deliver_syncInv _ _
    · exact h
  | secondaryTimeout =>
    simp only [step]
    split
    · split
      · exact h
      · exact deliver_syncInv _ _
    · exact h
  | connError m => exact deliver_syncInv _ _
  | connClose =>
    simp only [step]
    split
    · exact h
    · exact deliver_syncInv _ _
  | connectThrow m => exact deliver_syncInv _ _

theorem step_connError_isSome (k : OpKind) (c : String) (t : Nat) (s : MachineState)
    (m : String) : (step k c t s (Ev.connError m)).result.isSome = true :=
  deliver_isSome _ _

theorem step_connClose_isSome (k : OpKind) (c : String) (t : Nat) {s : MachineState}
    (h : syncInv s) : (step k c t s Ev.connClose).result.isSome = true := by
  simp only [step]
  split
  · rename_i hr
    exact h hr
  · exact deliver_isSome _ _

/-- On a trace free of shell-stream closes, any transport error or
transport close settles the promise. -/
theorem steps_resolves (k : OpKind) (c : String) (t : Nat) :
    ∀ (evs : List Ev) {s : MachineState}, syncInv s → Ev.streamClose ∉ evs →
      ((∃ m, Ev.connError m ∈ evs) ∨ Ev.connClose ∈ evs) →
      (steps k c t s evs).result.isSome = true := by
  intro evs
  induction evs with
  | nil =>
    intro s hs hno hmem
    rcases hmem with ⟨m, hm⟩ | hm <;> cases hm
  | cons e rest ih =>
    intro s hs hno hmem
    have hne : e ≠ Ev.streamClose := by
      intro hcontr
      exact hno (hcontr ▸ List.mem_cons_self e rest)
    have hnorest : Ev.streamClose ∉ rest := fun hx => hno (List.mem_cons_of_mem e hx)
    rcases hmem with ⟨m, hm⟩ | hm
    · rcases List.mem_cons.mp hm with heq | hrest
      · subst heq
        exact steps_isSome_stable k c t rest (step_connError_isSome k c t s m)
      · exact ih (step_syncInv k c t hs e hne) hnorest (Or.inl ⟨m, hrest⟩)
    · rcases List.mem_cons.mp hm with heq | hrest
      · subst heq
        exact steps_isSome_stable k c t rest (step_connClose_isSome k c t hs)
      · exact ih (step_syncInv k c t hs e hne) hnorest (Or.inr hrest)

/-- Every event extends the buffer by exactly its chunk contribution. -/
theorem step_buffer (k : OpKind) (c : String) (t : Nat) (s : MachineState) :
    ∀ e, (step k c t s e).buffer = s.buffer ++ evChunk k e := by
  intro e
  cases e with
  | connReady => exact (String.append_empty s.buffer).symm
  | shellOk =>
    simp only [step]
    split <;> exact (String.append_empty s.buffer).symm
  | shellErr m =>
    rw [show (step k c t s (Ev.shellErr m)).buffer
        = ((deliver { s with overallActive := false }
            (match k with
             | .cmdStream => { success := false, error := some ("Failed to start shell: " ++ m), output := some "" }
             | _ => { success := false, error := some ("Failed to start shell: " ++ m) })).buffer) from rfl]
    rw [deliver_buffer]
    exact (String.append_empty s.buffer).symm
  | grace =>
    simp only [step]
    split
    · exact (String.append_empty s.buffer).symm
    · split <;> exact (String.append_empty s.buffer).symm
  | data chunk =>
    simp only [step]
    split
    · split
      · rw [deliver_buffer]
        rfl
      · rw [deliver_buffer]
        rfl
    · rfl

  | stderrData chunk =>
    simp only [step, evChunk]
    split
    · exact (String.append_empty s.buffer).symm
    · rfl
  | streamClose =>
    rw [show (step k c t s Ev.streamClose).buffer
        = (cleanup { s with overallActive := false }).buffer from rfl]
    rw [cleanup_buffer]
    exact (String.append_empty s.buffer).symm
  | overallTimeout =>
    simp only [step]
    split
    · rw [deliver_buffer]
      exact (String.append_empty s.buffer).symm
    · exact (String.append_empty s.buffer).symm
  | secondaryTimeout =>
    simp only [step]
    split
    · split
      · exact (String.append_empty s.buffer).symm
      · rw [deliver_buffer]
        exact (String.append_empty s.buffer).symm
    · exact (String.append_empty s.buffer).symm
  | connError m =>
    rw [show (step k c t s (Ev.connError m)).buffer
        = ((deliver { s with overallActive := false }
            (match k with
             | .cmdStream => { success := false, error := some ("Connection error: " ++ m), output := some "" }
             | _ => { success := false, error := some ("Connection error: " ++ m) })).buffer) from rfl]
    rw [deliver_buffer]
    exact (String.append_empty s.buffer).symm
  | connClose =>
    simp only [step]
    split
    · exact (String.append_empty s.buffer).symm
    · rw [deliver_buffer]
      exact (String.append_empty s.buffer).symm
  | connectThrow m =>
    rw [show (step k c t s (Ev.connectThrow m)).buffer
        = ((deliver { s with overallActive := false }
            (match k with
             | .cmdStream => { success := false, error := some ("Failed to initiate connection: " ++ m), output := some "" }
             | _ => { success := false, error := some ("Failed to initiate connection: " ++ m) })).buffer) from rfl]
    rw [deliver_buffer]
    exact (String.append_empty s.buffer).symm

theorem steps_buffer (k : OpKind) (c : String) (t : Nat) :
    ∀ (evs : List Ev) (s : MachineState),
      (steps k c t s evs).buffer = s.buffer ++ chunksJoined k evs := by
  intro evs
  induction evs with
  | nil => intro s; exact (String.append_empty s.buffer).symm
  | cons e rest ih =>
    intro s
    have h1 : steps k c t s (e :: rest) = steps k c t (step k c t s e) rest := rfl
    rw [h1, ih, step_buffer, String.append_assoc]
    rfl

/-! ## Claim theorems: remote shell automaton -/

/-- C5: over any event trace of a shell operation, the transport teardown
runs at most once — in fact exactly when the `resolved` guard is set; once
the promise carries a result no later event changes it; and on any
interleaving of the competing terminal events (completion marker, the two
timers, transport close, transport error — the shell-stream close handler
is not one of them) that contains a transport error or transport close, the
promise is settled, hence settled exactly once. -/
theorem ssh_c5 (k : OpKind) (c : String) (t : Nat) (evs extra : List Ev) :
    (run k c t evs).endCount ≤ 1
    ∧ (run k c t evs).endCount = (if (run k c t evs).resolved = true then 1 else 0)
    ∧ (∀ r, (run k c t evs).result = some r → (run k c t (evs ++ extra)).result = some r)
    ∧ (Ev.streamClose ∉ evs →
        ((∃ m, Ev.connError m ∈ evs) ∨ Ev.connClose ∈ evs) →
        (run k c t evs).result.isSome = true) := by
  have hcount : countInv (run k c t evs) :=
    steps_countInv k c t evs (show (0 : Nat) = if false = true then 1 else 0 by decide)
  refine ⟨?_, hcount, ?_, ?_⟩
  · rw [show (run k c t evs).endCount = _ from hcount]
    split <;> omega
  · intro r h
    have happ : run k c t (evs ++ extra) = steps k c t (run k c t evs) extra := by
      unfold run steps
      rw [List.foldl_append]
    rw [happ]
    exact steps_result_stable k c t extra h
  · intro hno hmem
    exact steps_resolves k c t evs (fun hr => absurd hr (by decide)) hno hmem

/-- C5 (witness): a transport close settles the promise once with the
close failure, a later overall-timer event leaves that result untouched,
and the teardown ran at most once. -/
theorem ssh_c5_witness :
    (run .cmd "show status" 60000 ([Ev.connClose] ++ [Ev.overallTimeout])).result
      = some { success := false, output := some "", error := some "Connection closed unexpectedly" }
    ∧ (run .cmd "show status" 60000 [Ev.connClose]).endCount ≤ 1
    ∧ (run .cmd "show status" 60000 [Ev.connClose]).result.isSome = true := by
  obtain ⟨h1, h2, h3, h4⟩ := ssh_c5 .cmd "show status" 60000 [Ev.connClose] [Ev.overallTimeout]
  exact ⟨h3 _ (by decide), h1, h4 (by decide) (Or.inr (by decide)) ⟩

/-- C3 (counterexample): the spec claims both operations return the
accumulated partial output on every timeout path; in `executeCommand` the
overall per-operation timer resolves without any `output` field, so a run
that accumulated `"halfway done"` and then hits the overall timer reports
a failure whose output is `none` — the partial output is discarded. -/
theorem ssh_c3_counterexample :
    (run .cmd "show status" 20000
        [Ev.connReady, Ev.shellOk, Ev.grace, Ev.data "halfway done", Ev.overallTimeout]).result
      = some { success := false, error := some (overallTimeoutError 20000) }
    ∧ (run .cmd "show status" 20000
        [Ev.connReady, Ev.shellOk, Ev.grace, Ev.data "halfway done", Ev.overallTimeout]).buffer
      = "halfway done" := by
  exact ⟨by decide, by decide⟩

/-- C3 (amended): the secondary no-further-response timer always returns
the accumulated output, in both command operations; the overall timer does
so in `executeCommandWithStream` but in `executeCommand` its failure result
carries no output field; and in every operation the accumulated buffer is
exactly the concatenation of the chunks received so far, in arrival
order. -/
theorem ssh_c3_amended (c : String) (t : Nat) (s : MachineState) :
    (s.result = none → s.overallActive = true →
      (step .cmdStream c t s Ev.overallTimeout).result
        = some { success := false, output := some s.buffer, error := some (overallTimeoutError t) })
    ∧ (s.result = none → s.resolved = false → s.secondaryActive = true →
      (step .cmdStream c t s Ev.secondaryTimeout).result
        = some { success := false, output := some s.buffer, error := some (noResponseError t) })
    ∧ (s.result = none → s.resolved = false → s.secondaryActive = true →
      (step .cmd c t s Ev.secondaryTimeout).result
        = some { success := false, output := some s.buffer, error := some (noResponseError t) })
    ∧ (s.result = none → s.overallActive = true →
      (step .cmd c t s Ev.overallTimeout).result
        = some { success := false, error := some (overallTimeoutError t) })
    ∧ (∀ k evs, (run k c t evs).buffer = chunksJoined k evs) := by
  refine ⟨?_, ?_, ?_, ?_, ?_⟩
  · intro h ha
    simp only [step]
    rw [if_pos ha]
    exact deliver_result_of_none _ h
  · intro h hr ha
    simp only [step]
    rw [if_pos ha, hr]
    rw [if_neg (show ¬(false = true) by decide)]
    exact deliver_result_of_none _ h
  · intro h hr ha
    simp only [step]
    rw [if_pos ha, hr]
    rw [if_neg (show ¬(false = true) by decide)]
    exact deliver_result_of_none _ h
  · intro h ha
    simp only [step]
    rw [if_pos ha]
    exact deliver_result_of_none _ h
  · intro k evs
    unfold run
    rw [steps_buffer]
    rfl

/-- C3 (amended, witness): with `"abc"` accumulated and both timers armed,
the streaming overall timer and the plain secondary timer both report the
buffer, instantiating the amended theorem. -/
theorem ssh_c3_witness :
    (step .cmdStream "show status" 60000
        { resolved := false, buffer := "abc", result := none, endCount := 0,
          overallActive := true, secondaryActive := true, commandSent := true, shellOpen := true }
        Ev.overallTimeout).result
      = some { success := false, output := some "abc", error := some (overallTimeoutError 60000) }
    ∧ (step .cmd "show status" 60000
        { resolved := false, buffer := "abc", result := none, endCount := 0,
          overallActive := true, secondaryActive := true, commandSent := true, shellOpen := true }
        Ev.secondaryTimeout).result
      = some { success := false, output := some "abc", error := some (noResponseError 60000) } := by
  obtain ⟨h1, h2, h3, h4, h5⟩ := ssh_c3_amended "show status" 60000
    { resolved := false, buffer := "abc", result := none, endCount := 0,
      overallActive := true, secondaryActive := true, commandSent := true, shellOpen := true }
  exact ⟨h1 rfl rfl, h3 rfl rfl rfl⟩

/-- C4 (counterexample): the claim quantifies over every service-restart
command, and demands failure as soon as the buffer holds `[FAILED]`.  But a
restart of a service other than Cisco Tomcat takes the generic completion
branch: with `[FAILED]` in the buffer the run stays unresolved instead of
failing immediately; and for a Cisco Tomcat restart whose `[FAILED]`
arrives in the same chunk that also satisfies the success condition, the
automaton resolves success, not failure. -/
theorem ssh_c4_counterexample :
    (run .cmd "utils service restart Cisco CallManager" 60000
        [Ev.connReady, Ev.shellOk, Ev.grace, Ev.data "[FAILED]\n"]).result = none
    ∧ (run .cmd "utils service restart Cisco Tomcat" 60000
        [Ev.connReady, Ev.shellOk, Ev.grace, Ev.data "[FAILED] before [STARTED]\nadmin:"]).result
      = some { success := true, output := some "[FAILED] before [STARTED]\nadmin:" } := by
  exact ⟨by decide, by decide⟩

/-- C4 (amended): for restart commands naming Cisco Tomcat (the only ones
the marker logic applies to — the command text must contain both
`service restart` and `Cisco Tomcat`), a data event resolves success
exactly when the buffer holds `[STARTED]` and the same chunk holds the
prompt token, and otherwise resolves failure exactly when the buffer holds
`[FAILED]` or `ERROR`; in particular a `[FAILED]` arriving before any
`[STARTED]` fails the run at that very data event, before any timer
fires. -/
theorem ssh_c4_amended :
    (∀ (k : OpKind), k ≠ OpKind.test → ∀ cmd buf chunk, isTomcatRestart cmd = true →
      ((dataDecision k cmd buf chunk = some { success := true, output := some buf } ↔
          (strHas buf "[STARTED]" && strHas chunk "admin:") = true)
        ∧ (dataDecision k cmd buf chunk
              = some { success := false, output := some buf, error := some "Service restart failed" } ↔
            ((strHas buf "[STARTED]" && strHas chunk "admin:") = false
              ∧ (strHas buf "[FAILED]" || strHas buf "ERROR") = true))))
    ∧ (run .cmdStream "utils service restart Cisco Tomcat" 60000
        [Ev.connReady, Ev.shellOk, Ev.grace, Ev.data "[FAILED]\n"]).result
      = some { success := false, output := some "[FAILED]\n", error := some "Service restart failed" } := by
  constructor
  · intro k hk cmd buf chunk hT
    cases k with
    | test => exact absurd rfl hk
    | cmd =>
      simp only [dataDecision, hT, if_true]
      cases hS : (strHas buf "[STARTED]" && strHas chunk "admin:") <;>
        cases hF : (strHas buf "[FAILED]" || strHas buf "ERROR") <;>
          simp [SSHResult.mk.injEq]
    | cmdStream =>
      simp only [dataDecision, hT, if_true]
      cases hS : (strHas buf "[STARTED]" && strHas chunk "admin:") <;>
        cases hF : (strHas buf "[FAILED]" || strHas buf "ERROR") <;>
          simp [SSHResult.mk.injEq]
  · decide

/-- C4 (amended, witness): a Tomcat restart whose buffer holds `[STARTED]`
with the prompt in the same chunk resolves success, by the amended
characterization. -/
theorem ssh_c4_witness :
    dataDecision .cmd "utils service restart Cisco Tomcat" "x[STARTED]\n" "admin:"
      = some { success := true, output := some "x[STARTED]\n" } := by
  exact ((ssh_c4_amended.1 .cmd (by decide) "utils service restart Cisco Tomcat"
    "x[STARTED]\n" "admin:" (by decide)).1).mpr (by decide)

/-- C10 (counterexample): the claim says the operations always settle, in
particular resolving `success := false` on an unexpected close.  But when
the shell stream closes before any resolution, the handler marks the call
resolved and tears the transport down without resolving the promise; the
subsequent timers and the transport close are then all ignored, so the
promise never settles at all. -/
theorem ssh_c10_counterexample :
    (run .cmd "show status" 60000
        [Ev.connReady, Ev.shellOk, Ev.streamClose, Ev.connClose,
         Ev.overallTimeout, Ev.secondaryTimeout, Ev.grace]).result = none := by
  decide

/-- C10 (amended): whenever the three operations settle they resolve with a
structured result (the model delivers only `SSHResult` records — there is
no rejection path); connection refusal, shell-open failure, both timeouts,
a pre-resolution transport close and a thrown connect call each resolve
with `success := false` and an error message; but on the
shell-stream-close-before-resolution path the promise never settles. -/
theorem ssh_c10_amended :
    (run .test "" 45000 [Ev.connectThrow "boom"]).result
      = some { success := false, error := some "Failed to initiate connection: boom" }
    ∧ (run .cmd "show status" 60000 [Ev.connError "connect ECONNREFUSED"]).result
      = some { success := false, error := some "Connection error: connect ECONNREFUSED" }
    ∧ (run .cmdStream "show status" 60000 [Ev.connReady, Ev.shellErr "Channel open failure"]).result
      = some { success := false, output := some "", error := some "Failed to start shell: Channel open failure" }
    ∧ (run .test "" 45000 [Ev.connReady, Ev.shellOk, Ev.overallTimeout]).result
      = some { success := false, error := some "Connection timeout after 45 seconds" }
    ∧ (run .test "" 45000 [Ev.connReady, Ev.shellOk, Ev.grace, Ev.secondaryTimeout]).result
      = some { success := false, error := some "Connected but received no data from server" }
    ∧ (run .cmd "show status" 60000 [Ev.connReady, Ev.connClose]).result
      = some { success := false, output := some "", error := some "Connection closed unexpectedly" }
    ∧ (run .cmd "show status" 60000
        [Ev.connReady, Ev.shellOk, Ev.streamClose, Ev.overallTimeout,
         Ev.secondaryTimeout, Ev.connClose]).result = none := by
  refine ⟨by decide, by decide, by decide, by decide, by decide, by decide, by decide⟩
